import Mathlib

/-!
Shallow embedding of `src/apb/entrypoint.py` (cisagov/action-apb).

The program is a single linear procedure: resolve configuration from CLI
flags merged over environment variables, parse a build-age duration, search
for repositories, and for each repository fetch the most recent run of a
configured workflow, compare its age against a cutoff, optionally send a
repository-dispatch event subject to a global budget, and finally write a
JSON report.

Modelling conventions:
 - timestamps are `Int` seconds (the code works with timezone-naive UTC
   `datetime` values; `isoparse(...).replace(tzinfo=None)` yields such a
   value, which we represent directly as seconds);
 - the remote state seen through the GitHub API is a list of `RepoState`
   values: one per search result, in enumeration order, carrying the data
   the program reads (full name, visibility, default branch, the HTTP
   status and body of the workflow-runs listing, and whether the dispatch
   call succeeds or raises);
 - Python exceptions and `sys.exit` are modelled with `Except Failure`;
   an uncaught exception (`Failure.uncaught`) makes the process die before
   the report file is written;
 - `pytimeparse.parse` is an external library and is passed in as an
   oracle `String → Option Int`;
 - mutation of the report dict is linearised: each loop iteration appends
   the finished per-repository status.  GitHub full names of distinct
   repositories are distinct, so dict insertion is append.
-/

/-- One element of the `workflow_runs` array of the runs-listing response,
with the fields the program (and the spec) mention: creation timestamp and
the branch the run was made on.  The listing is ordered most recent first,
as the GitHub API returns it. -/
structure WorkflowRun where
  created_at : Int
  head_branch : String
deriving DecidableEq, Inhabited

/-- A repository as observed through the remote API during one run:
identity and visibility from the search result, plus the remote responses
the evaluation of this repository will receive. `runs_status_code` and
`workflow_runs` describe the response to the workflow-runs request in
`get_last_run`; `dispatch_ok` tells whether `create_repository_dispatch`
succeeds or raises. -/
structure RepoState where
  full_name : String
  is_private : Bool
  default_branch : String
  runs_status_code : Nat
  workflow_runs : List WorkflowRun
  dispatch_ok : Bool
deriving DecidableEq, Inhabited

/-- Model of `get_last_run` (entrypoint.py lines 58-76): request the runs of the
configured workflow; a non-200 status yields `None`; an empty
`workflow_runs` array yields `None`; otherwise the creation time of the
first (most recent) run is returned.  The request URL carries no branch
filter, so the listing covers runs on every branch. -/
def get_last_run (repo : RepoState) (workflow_id : String) : Option Int :=
  if repo.runs_status_code ≠ 200 then
    none
  else
    match repo.workflow_runs with
    | [] => none
    | r :: _ => some r.created_at

/-- Comparison definition following the spec text rather than the source:
the most recent run restricted to the default branch of the repository
("fetch its most recent run restricted to the default branch of the
repository"). -/
def get_last_run_spec_branch (repo : RepoState) (workflow_id : String) : Option Int :=
  if repo.runs_status_code ≠ 200 then
    none
  else
    match repo.workflow_runs.filter (fun r => r.head_branch = repo.default_branch) with
    | [] => none
    | r :: _ => some r.created_at

/-- Modelled from the spec: `babel.dates.format_timedelta` renders a
duration as a human-readable string.  The exact rendering is irrelevant to
every claim; we model it as a total deterministic function of the
duration in seconds. -/
def format_timedelta (delta_seconds : Int) : String :=
  toString delta_seconds ++ " seconds"

/-- Rendering of `datetime.isoformat()` on the model timestamp. -/
def isoformat (t : Int) : String :=
  "1970-01-01T00:00:00+" ++ toString t

/-- The per-repository status dict.  `workflow` holds the value of the
`"workflow"` key (`none` renders as JSON `null`); for the other three
fields `none` means the key is absent from the dict. -/
structure RepoStatus where
  workflow : Option String
  run_age_seconds : Option Int
  run_age : Option String
  event_sent : Option Bool
deriving DecidableEq, Inhabited

/-- The status recorded when the workflow (or any run of it) is absent:
exactly `\x7b"workflow": null\x7d`. -/
def nullStatus : RepoStatus :=
  { workflow := none, run_age_seconds := none, run_age := none, event_sent := none }

/-- The mutable state of the per-repository loop: the rebuild counter, the
`repositories` mapping being accumulated (in insertion order), and the
dispatch events sent so far as (repository full name, event type) pairs. -/
structure LoopState where
  rebuilds_triggered : Int
  repositories : List (String × RepoStatus)
  dispatches : List (String × String)
deriving DecidableEq, Inhabited

/-- How an invocation can terminate abnormally: `exited code msg` models
`sys.exit(code)` after a fatal log message, `uncaught msg` models an
uncaught Python exception (the process dies with a traceback and exit
status 1). -/
inductive Failure where
  | exited (code : Int) (msg : String)
  | uncaught (msg : String)
deriving DecidableEq, Inhabited

def dispatchErrorMsg : String := "GithubException raised by create_repository_dispatch"

/-- The status fields recorded once a last run exists (entrypoint.py lines
219-223): the workflow id, the age of the run in seconds, its
human-readable rendering, and `event_sent` initialised to `False`. -/
def baseStatus (workflow_id : String) (delta : Int) : RepoStatus :=
  { workflow := some workflow_id
    run_age_seconds := some delta
    run_age := some (format_timedelta delta)
    event_sent := some false }

/-- One iteration of the `for repo in repos` loop (entrypoint.py lines
209-236).  The entry for the repository is inserted into the report; if
`get_last_run` found no run the entry is `nullStatus` and the iteration
ends; otherwise the age fields are recorded, `event_sent` starts `False`,
and when the last run is strictly older than `past_date` and the budget
check `max_rebuilds == 0 or rebuilds_triggered < max_rebuilds` passes, the
counter is incremented and the dispatch is attempted; a failing dispatch
raises, killing the run. -/
def processRepo (workflow_id event_type : String) (max_rebuilds : Int)
    (now past_date : Int) (st : LoopState) (repo : RepoState) :
    Except Failure LoopState :=
  match get_last_run repo workflow_id with
  | none =>
      Except.ok { st with
        repositories := st.repositories ++ [(repo.full_name, nullStatus)] }
  | some last_run =>
      if last_run < past_date then
        if max_rebuilds = 0 ∨ st.rebuilds_triggered < max_rebuilds then
          if repo.dispatch_ok then
            Except.ok
              { rebuilds_triggered := st.rebuilds_triggered + 1
                repositories := st.repositories ++
                  [(repo.full_name,
                    { baseStatus workflow_id (now - last_run) with event_sent := some true })]
                dispatches := st.dispatches ++ [(repo.full_name, event_type)] }
          else
            Except.error (Failure.uncaught dispatchErrorMsg)
        else
          Except.ok { st with
            repositories := st.repositories ++
              [(repo.full_name, baseStatus workflow_id (now - last_run))] }
      else
        Except.ok { st with
          repositories := st.repositories ++
            [(repo.full_name, baseStatus workflow_id (now - last_run))] }

/-- The whole per-repository loop: iterate `processRepo` over the
enumerated repositories, propagating an uncaught exception. -/
def runLoop (workflow_id event_type : String) (max_rebuilds : Int)
    (now past_date : Int) : LoopState → List RepoState → Except Failure LoopState
  | st, [] => Except.ok st
  | st, repo :: rest =>
      match processRepo workflow_id event_type max_rebuilds now past_date st repo with
      | Except.error e => Except.error e
      | Except.ok st2 => runLoop workflow_id event_type max_rebuilds now past_date st2 rest

/-- The loop state at the top of the loop: counter 0, empty report, no
dispatches sent. -/
def initState : LoopState :=
  { rebuilds_triggered := 0, repositories := [], dispatches := [] }

/-- The aggregate run report (entrypoint.py lines 202-208). -/
structure Report where
  build_age_seconds : Int
  build_age : String
  ran_at : String
  repositories : List (String × RepoStatus)
  repository_query : String
deriving DecidableEq, Inhabited

/-! ### JSON serialization

`json.dump(all_repo_status, f, indent=4, sort_keys=True)` specialised to
the shapes the program writes.  Keys of each object are emitted in sorted
order; nesting is indented by 4 spaces per level, exactly as the Python
`json` module formats it. -/

/-- Produce `n` spaces of indentation. -/
def spaces : Nat → String
  | 0 => ""
  | n + 1 => " " ++ spaces n

/-- JSON string escaping for one character (backslash, double quote); the
strings of the report contain no other characters needing escapes. -/
def escapeChar (c : Char) : String :=
  if c.toNat = 92 then
    "\\\\"
  else if c.toNat = 34 then
    "\\\""
  else String.mk [c]

def escapeJson (s : String) : String :=
  String.join (s.data.map escapeChar)

/-- A JSON string literal. -/
def quoteJson (s : String) : String :=
  "\"" ++ escapeJson s ++ "\""

/-- Separator between the members of an indented JSON object. -/
def commaNewline : String := ",\n"

/-- Lay out the members of a JSON object at nesting level `lvl`, as
`json.dump` does with `indent=4`: `\x7b\x7d` when empty, otherwise each
`"key": value` member on its own line indented one level deeper, and the
closing brace at the own level of the object. -/
def joinObj (lvl : Nat) (items : List String) : String :=
  match items with
  | [] => "\x7b\x7d"
  | _ =>
      "\x7b\n"
        ++ String.intercalate commaNewline (items.map (fun it => spaces (4 * (lvl + 1)) ++ it))
        ++ "\n" ++ spaces (4 * lvl) ++ "\x7d"

/-- The members of a per-repository status object, in sorted key order
(`event_sent` < `run_age` < `run_age_seconds` < `workflow`); absent
optional fields are omitted, a `none` workflow renders as `null`. -/
def statusItems (st : RepoStatus) : List String :=
  (match st.event_sent with
   | some b => ["\"event_sent\": " ++ (if b then "true" else "false")]
   | none => []) ++
  (match st.run_age with
   | some s => ["\"run_age\": " ++ quoteJson s]
   | none => []) ++
  (match st.run_age_seconds with
   | some n => ["\"run_age_seconds\": " ++ toString n]
   | none => []) ++
  ["\"workflow\": " ++ (match st.workflow with
   | some w => quoteJson w
   | none => "null")]

/-- Sort the repository entries by full name, as `sort_keys=True` orders
the keys of the `repositories` object. -/
def sortByName (l : List (String × RepoStatus)) : List (String × RepoStatus) :=
  List.insertionSort (fun a b => a.1 ≤ b.1) l

/-- Serialize the aggregate report exactly as
`json.dump(..., indent=4, sort_keys=True)` renders it.  The top-level keys
are written in their sorted order: `build_age`, `build_age_seconds`,
`ran_at`, `repositories`, `repository_query`. -/
def dumpReport (r : Report) : String :=
  joinObj 0
    [ "\"build_age\": " ++ quoteJson r.build_age,
      "\"build_age_seconds\": " ++ toString r.build_age_seconds,
      "\"ran_at\": " ++ quoteJson r.ran_at,
      "\"repositories\": " ++ joinObj 1
        ((sortByName r.repositories).map
          (fun p => quoteJson p.1 ++ ": " ++ joinObj 2 (statusItems p.2))),
      "\"repository_query\": " ++ quoteJson r.repository_query ]

/-! ### Configuration resolution (entrypoint.py lines 81-196) -/

/-- The command-line options as parsed by docopt: every flag is optional
except `--log-level`, which docopt defaults to `"info"`. -/
structure CliArgs where
  github_token : Option String
  repo_query : Option String
  workflow_name : Option String
  build_age : Option String
  event_type : Option String
  max_rebuilds : Option String
  output_dir : Option String
  output_file : Option String
  log_level : String
deriving DecidableEq, Inhabited

/-- The environment variables the program reads. -/
structure Env where
  input_access_token : Option String
  input_build_age : Option String
  input_event_type : Option String
  github_workspace : Option String
  input_max_rebuilds : Option String
  input_repo_query : Option String
  input_workflow_id : Option String
  input_write_filename : Option String
deriving DecidableEq, Inhabited

/-- Resolution `args[flag] if args[flag] is not None else fallback`. -/
def firstSome (a b : Option String) : Option String :=
  match a with
  | some v => some v
  | none => b

/-- The log levels the program accepts:
`logging._nameToLevel.keys() - ["NOTSET", "WARN"]`, lowercased.  Note that
the deprecated `FATAL` alias survives the filter. -/
def log_levels : List String :=
  ["critical", "fatal", "error", "warning", "info", "debug"]

def logLevelMsg : String := "Possible values for --log-level were printed to stderr"
def valueErrorMsg : String := "ValueError: invalid literal for int() with base 10"
def accessTokenMsg : String :=
  "Access token environment variable must be set. (INPUT_ACCESS_TOKEN)"
def buildAgeMsg : String :=
  "Build age environment variable must be set. (INPUT_BUILD_AGE)"
def eventTypeMsg : String :=
  "Event type environment variable must be set. (INPUT_EVENT_TYPE)"
def workspaceMsg : String :=
  "GitHub workspace environment variable must be set. (GITHUB_WORKSPACE)"
def repoQueryMsg : String :=
  "Reository query environment variable must be set. (INPUT_REPO_QUERY)"
def workflowIdMsg : String :=
  "Workflow ID environment variable must be set. (INPUT_WORKFLOW_ID)"
def writeFilenameMsg : String :=
  "Output filename environment variable must be set. (INPUT_WRITE_FILENAME)"
def typeErrorMsg : String :=
  "TypeError: bad operand type for abs(): NoneType"
def defaultMaxStr : String := "10"
def defaultFileStr : String := "apb.json"

/-- The fully resolved configuration the rest of the run uses. -/
structure Config where
  access_token : String
  build_age : String
  build_age_seconds : Int
  event_type : String
  github_workspace_dir : String
  max_rebuilds : Int
  repo_query : String
  workflow_id : String
  write_filename : String
deriving DecidableEq, Inhabited

/-- Python `str.lower` restricted to ASCII, used by the log-level check.
Modelled explicitly so that the definition evaluates in the kernel. -/
def pyLower (s : String) : String :=
  String.mk (s.data.map (fun c =>
    if 65 ≤ c.toNat ∧ c.toNat ≤ 90 then Char.ofNat (c.toNat + 32) else c))

/-- One decimal digit of a Python int literal. -/
def pyDigit (c : Char) : Option Nat :=
  if 48 ≤ c.toNat ∧ c.toNat ≤ 57 then some (c.toNat - 48) else none

def pyDigitsAux : Option Nat → List Char → Option Nat
  | acc, [] => acc
  | acc, c :: rest =>
      match acc, pyDigit c with
      | some a, some d => pyDigitsAux (some (a * 10 + d)) rest
      | _, _ => none

def pyDigits (l : List Char) : Option Nat :=
  match l with
  | [] => none
  | _ => pyDigitsAux (some 0) l

/-- Python `int()` on an optional-sign decimal string; `none` models the
`ValueError` it raises on anything else. -/
def pyInt (s : String) : Option Int :=
  match s.data with
  | [] => none
  | c :: rest =>
      if c.toNat = 45 then (pyDigits rest).map (fun n => -(n : Int))
      else (pyDigits s.data).map (fun n => (n : Int))

/-- Model of `logging.fatal(msg); sys.exit(-1)` when the value is missing. -/
def require (v : Option String) (msg : String) : Except Failure String :=
  match v with
  | none => Except.error (Failure.exited (-1) msg)
  | some s => Except.ok s

/-- Everything `main` does before touching the network, in source order:
the log-level check (exit -1 on an invalid level), resolution of each
input as flag-over-environment, the `int()` conversion of the max-rebuilds
value (an unparseable value raises `ValueError`), the seven sanity checks
(each missing required value logs fatal and exits -1; the output-filename
check can never fire because its resolution has the default `"apb.json"`),
and finally `pytimeparse.parse` of the build age, whose `None` result
makes `relativedelta(seconds=None)` raise `TypeError`. -/
def preflight (args : CliArgs) (env : Env)
    (pytimeparse : String → Option Int) : Except Failure Config :=
  if (log_levels.contains (pyLower args.log_level)) = false then
    Except.error (Failure.exited (-1) logLevelMsg)
  else
    match pyInt (match args.max_rebuilds with
           | some s => s
           | none => env.input_max_rebuilds.getD defaultMaxStr) with
    | none => Except.error (Failure.uncaught valueErrorMsg)
    | some max_rebuilds =>
      Except.bind (require (firstSome args.github_token env.input_access_token) accessTokenMsg)
        fun access_token =>
      Except.bind (require (firstSome args.build_age env.input_build_age) buildAgeMsg)
        fun build_age =>
      Except.bind (require (firstSome args.event_type env.input_event_type) eventTypeMsg)
        fun event_type =>
      Except.bind (require (firstSome args.output_dir env.github_workspace) workspaceMsg)
        fun github_workspace_dir =>
      Except.bind (require (firstSome args.repo_query env.input_repo_query) repoQueryMsg)
        fun repo_query =>
      Except.bind (require (firstSome args.workflow_name env.input_workflow_id) workflowIdMsg)
        fun workflow_id =>
      Except.bind (require
          (firstSome args.output_file (some (env.input_write_filename.getD defaultFileStr)))
          writeFilenameMsg)
        fun write_filename =>
      match pytimeparse build_age with
      | none => Except.error (Failure.uncaught typeErrorMsg)
      | some build_age_seconds =>
          Except.ok
            { access_token := access_token
              build_age := build_age
              build_age_seconds := build_age_seconds
              event_type := event_type
              github_workspace_dir := github_workspace_dir
              max_rebuilds := max_rebuilds
              repo_query := repo_query
              workflow_id := workflow_id
              write_filename := write_filename }

/-- Everything the run observably produces when it completes: the
aggregate report, the dispatch events sent (in order), and the file writes
performed as (path, contents) pairs. -/
structure MainOutput where
  report : Report
  dispatches : List (String × String)
  writes : List (String × String)
deriving DecidableEq, Inhabited

/-- The aggregate status dict as assembled by `main` (entrypoint.py lines
202-208 and the loop). -/
def buildReport (cfg : Config) (now : Int) (final : LoopState) : Report :=
  { build_age_seconds := cfg.build_age_seconds
    build_age := cfg.build_age
    ran_at := isoformat now
    repositories := final.repositories
    repository_query := cfg.repo_query }

/-- The observable output of a run whose loop completed: the report, the
dispatches sent, and the single file write of the serialized report to
`\x7bdir\x7d/\x7bfilename\x7d` (entrypoint.py lines 239-242). -/
def finishRun (cfg : Config) (now : Int) (final : LoopState) : MainOutput :=
  { report := buildReport cfg now final
    dispatches := final.dispatches
    writes := [(cfg.github_workspace_dir ++ "/" ++ cfg.write_filename,
                dumpReport (buildReport cfg now final))] }

/-- The run after configuration: compute `past_date = now - seconds`, run
the loop over the enumerated repositories, and, when the loop completes
without an uncaught exception, assemble and write the report. -/
def runWithConfig (cfg : Config) (now : Int) (repos : List RepoState) :
    Except Failure MainOutput :=
  match runLoop cfg.workflow_id cfg.event_type cfg.max_rebuilds now
      (now - cfg.build_age_seconds) initState repos with
  | Except.error e => Except.error e
  | Except.ok final => Except.ok (finishRun cfg now final)

/-- Model of `main` (entrypoint.py lines 79-243), named `mainRun`: preflight, then
the loop and the report write.  `now` is `datetime.utcnow()` captured
once; `repos` is the enumeration the repository search returns. -/
def mainRun (args : CliArgs) (env : Env) (pytimeparse : String → Option Int)
    (now : Int) (repos : List RepoState) : Except Failure MainOutput :=
  match preflight args env pytimeparse with
  | Except.error e => Except.error e
  | Except.ok cfg => runWithConfig cfg now repos

/-! ### Concrete sample data used by witnesses and counterexamples -/

def wfName : String := "build.yml"
def evType : String := "rebuild"
def mainBr : String := "main"
def devBr : String := "develop"
def nameAlpha : String := "org/alpha"
def nameBeta : String := "org/beta"
def nameGamma : String := "org/gamma"
def namePriv : String := "org/secret"
def tokStr : String := "ghp-token"
def ageStr : String := "7d"
def queryStr : String := "org:org archived:false"
def wsDir : String := "/github/workspace"
def infoLevel : String := "info"

/-- A public repository whose workflow last ran at time 100. -/
def repoAlpha : RepoState :=
  { full_name := nameAlpha, is_private := false, default_branch := mainBr,
    runs_status_code := 200,
    workflow_runs := [{ created_at := 100, head_branch := mainBr }],
    dispatch_ok := true }

/-- A repository whose workflow-runs request answers 404. -/
def repoNoWf : RepoState :=
  { full_name := nameBeta, is_private := false, default_branch := mainBr,
    runs_status_code := 404, workflow_runs := [], dispatch_ok := true }

/-- A private repository with an old run. -/
def repoPriv : RepoState :=
  { full_name := namePriv, is_private := true, default_branch := mainBr,
    runs_status_code := 200,
    workflow_runs := [{ created_at := 100, head_branch := mainBr }],
    dispatch_ok := true }

/-- A repository whose most recent run is on a feature branch, with an
older run on the default branch. -/
def repoCross : RepoState :=
  { full_name := nameGamma, is_private := false, default_branch := mainBr,
    runs_status_code := 200,
    workflow_runs := [{ created_at := 50, head_branch := devBr },
                      { created_at := 10, head_branch := mainBr }],
    dispatch_ok := true }

/-- A qualifying repository whose dispatch call raises. -/
def repoBadDispatch : RepoState :=
  { full_name := nameBeta, is_private := false, default_branch := mainBr,
    runs_status_code := 200,
    workflow_runs := [{ created_at := 100, head_branch := mainBr }],
    dispatch_ok := false }

/-- A resolved configuration: one-week build age, budget 10. -/
def cfgSample : Config :=
  { access_token := tokStr, build_age := ageStr, build_age_seconds := 100,
    event_type := evType, github_workspace_dir := wsDir, max_rebuilds := 10,
    repo_query := queryStr, workflow_id := wfName, write_filename := defaultFileStr }

/-! ### Step lemmas about `processRepo` -/

/-- Each successful iteration appends exactly one entry, keyed by the
full name of the repository. -/
theorem processRepo_appends {wf et : String} {max now past : Int}
    {st st' : LoopState} {repo : RepoState}
    (h : processRepo wf et max now past st repo = Except.ok st') :
    ∃ status, st'.repositories = st.repositories ++ [(repo.full_name, status)] := by
  unfold processRepo at h
  cases hlr : get_last_run repo wf with
  | none =>
      simp only [hlr] at h
      injection h with h2
      exact ⟨nullStatus, by rw [← h2]⟩
  | some t =>
      simp only [hlr] at h
      by_cases hq : t < past
      · rw [if_pos hq] at h
        by_cases hb : max = 0 ∨ st.rebuilds_triggered < max
        · rw [if_pos hb] at h
          by_cases hd : repo.dispatch_ok = true
          · rw [if_pos hd] at h
            injection h with h2
            exact ⟨_, by rw [← h2]⟩
          · rw [if_neg hd] at h
            exact absurd h (by simp)
        · rw [if_neg hb] at h
          injection h with h2
          exact ⟨_, by rw [← h2]⟩
      · rw [if_neg hq] at h
        injection h with h2
        exact ⟨_, by rw [← h2]⟩

/-- Each successful iteration either leaves the counter and the dispatch
list unchanged, or increments the counter by one while sending exactly one
dispatch of the configured event type, which it may only do when the
budget check passes. -/
theorem processRepo_counter_cases {wf et : String} {max now past : Int}
    {st st' : LoopState} {repo : RepoState}
    (h : processRepo wf et max now past st repo = Except.ok st') :
    (st'.rebuilds_triggered = st.rebuilds_triggered ∧ st'.dispatches = st.dispatches) ∨
    (st'.rebuilds_triggered = st.rebuilds_triggered + 1 ∧
     st'.dispatches = st.dispatches ++ [(repo.full_name, et)] ∧
     (max = 0 ∨ st.rebuilds_triggered < max)) := by
  unfold processRepo at h
  cases hlr : get_last_run repo wf with
  | none =>
      simp only [hlr] at h
      injection h with h2
      left
      rw [← h2]
      exact ⟨rfl, rfl⟩
  | some t =>
      simp only [hlr] at h
      by_cases hq : t < past
      · rw [if_pos hq] at h
        by_cases hb : max = 0 ∨ st.rebuilds_triggered < max
        · rw [if_pos hb] at h
          by_cases hd : repo.dispatch_ok = true
          · rw [if_pos hd] at h
            injection h with h2
            right
            rw [← h2]
            exact ⟨rfl, rfl, hb⟩
          · rw [if_neg hd] at h
            exact absurd h (by simp)
        · rw [if_neg hb] at h
          injection h with h2
          left
          rw [← h2]
          exact ⟨rfl, rfl⟩
      · rw [if_neg hq] at h
        injection h with h2
        left
        rw [← h2]
        exact ⟨rfl, rfl⟩

/-- With a negative budget the check `max_rebuilds == 0 or
rebuilds_triggered < max_rebuilds` is false (the counter is nonnegative),
so an iteration never increments the counter, never dispatches, and never
marks `event_sent` true. -/
theorem processRepo_neg_max {wf et : String} {max now past : Int}
    {st st' : LoopState} {repo : RepoState}
    (hneg : max < 0) (hge : 0 ≤ st.rebuilds_triggered)
    (h : processRepo wf et max now past st repo = Except.ok st') :
    st'.rebuilds_triggered = st.rebuilds_triggered ∧
    st'.dispatches = st.dispatches ∧
    ∃ status, st'.repositories = st.repositories ++ [(repo.full_name, status)] ∧
      status.event_sent ≠ some true := by
  have hb : ¬ (max = 0 ∨ st.rebuilds_triggered < max) := by
    push_neg
    exact ⟨by omega, by omega⟩
  unfold processRepo at h
  cases hlr : get_last_run repo wf with
  | none =>
      simp only [hlr] at h
      injection h with h2
      rw [← h2]
      exact ⟨rfl, rfl, nullStatus, rfl, by simp [nullStatus]⟩
  | some t =>
      simp only [hlr] at h
      by_cases hq : t < past
      · rw [if_pos hq, if_neg hb] at h
        injection h with h2
        rw [← h2]
        exact ⟨rfl, rfl, _, rfl, by simp [baseStatus]⟩
      · rw [if_neg hq] at h
        injection h with h2
        rw [← h2]
        exact ⟨rfl, rfl, _, rfl, by simp [baseStatus]⟩

/-- The loop body never reads the visibility flag of the repository. -/
theorem processRepo_ignores_visibility (wf et : String) (max now past : Int)
    (st : LoopState) (repo : RepoState) (b : Bool) :
    processRepo wf et max now past st { repo with is_private := b } =
      processRepo wf et max now past st repo := rfl

/-- Counter facts over the whole loop: the counter never decreases, a
positive budget bound is preserved, and the counter advances by exactly
the number of dispatch events sent. -/
theorem runLoop_counter_invariant {wf et : String} {max now past : Int}
    {st st' : LoopState} {repos : List RepoState}
    (h : runLoop wf et max now past st repos = Except.ok st') :
    st.rebuilds_triggered ≤ st'.rebuilds_triggered ∧
    (0 < max → st.rebuilds_triggered ≤ max → st'.rebuilds_triggered ≤ max) ∧
    st'.rebuilds_triggered + (st.dispatches.length : Int) =
      st.rebuilds_triggered + (st'.dispatches.length : Int) := by
  induction repos generalizing st with
  | nil =>
      unfold runLoop at h
      injection h with h2
      rw [← h2]
      exact ⟨le_refl _, fun _ hb => hb, rfl⟩
  | cons repo rest ih =>
      unfold runLoop at h
      cases hp : processRepo wf et max now past st repo with
      | error e =>
          rw [hp] at h
          exact absurd h (by simp)
      | ok st2 =>
          rw [hp] at h
          obtain ⟨ih1, ih2, ih3⟩ := ih h
          rcases processRepo_counter_cases hp with ⟨hc, hd⟩ | ⟨hc, hd, hb⟩
          · have hlen : (st2.dispatches.length : Int) = st.dispatches.length := by
              rw [hd]
            refine ⟨by omega, fun hmax hle => ?_, by omega⟩
            have := ih2 hmax (by omega)
            omega
          · have hlen : (st2.dispatches.length : Int) = st.dispatches.length + 1 := by
              rw [hd]
              simp
            rcases hb with hb | hb
            · refine ⟨by omega, fun hmax hle => by omega, by omega⟩
            · refine ⟨by omega, fun hmax hle => ?_, by omega⟩
              have := ih2 hmax (by omega)
              omega

/-- Every repository the loop processes contributes exactly one key to
the report, in enumeration order. -/
theorem runLoop_keys {wf et : String} {max now past : Int}
    {st st' : LoopState} {repos : List RepoState}
    (h : runLoop wf et max now past st repos = Except.ok st') :
    st'.repositories.map Prod.fst =
      st.repositories.map Prod.fst ++ repos.map RepoState.full_name := by
  induction repos generalizing st with
  | nil =>
      unfold runLoop at h
      injection h with h2
      rw [← h2]
      simp
  | cons repo rest ih =>
      unfold runLoop at h
      cases hp : processRepo wf et max now past st repo with
      | error e =>
          rw [hp] at h
          exact absurd h (by simp)
      | ok st2 =>
          rw [hp] at h
          obtain ⟨status, hs⟩ := processRepo_appends hp
          rw [ih h, hs]
          simp

/-- The whole loop is invariant under arbitrary rewriting of the
visibility flags of the enumerated repositories. -/
theorem runLoop_ignores_visibility (wf et : String) (max now past : Int)
    (st : LoopState) (repos : List RepoState) (f : RepoState → Bool) :
    runLoop wf et max now past st
        (repos.map (fun r => { r with is_private := f r })) =
      runLoop wf et max now past st repos := by
  induction repos generalizing st with
  | nil => rfl
  | cons repo rest ih =>
      simp only [List.map_cons, runLoop, processRepo_ignores_visibility]
      cases hps : processRepo wf et max now past st repo with
      | error e => simp [hps]
      | ok st2 =>
          simp only [hps]
          exact ih st2

/-- Over the whole loop a negative budget changes nothing: counter and
dispatch list are untouched and no new entry carries `event_sent = true`. -/
theorem runLoop_neg_max {wf et : String} {max now past : Int}
    {st st' : LoopState} {repos : List RepoState}
    (hneg : max < 0) (hge : 0 ≤ st.rebuilds_triggered)
    (h : runLoop wf et max now past st repos = Except.ok st') :
    st'.rebuilds_triggered = st.rebuilds_triggered ∧
    st'.dispatches = st.dispatches ∧
    ∃ extra, st'.repositories = st.repositories ++ extra ∧
      ∀ p ∈ extra, p.2.event_sent ≠ some true := by
  induction repos generalizing st with
  | nil =>
      unfold runLoop at h
      injection h with h2
      rw [← h2]
      exact ⟨rfl, rfl, [], by simp, by simp⟩
  | cons repo rest ih =>
      unfold runLoop at h
      cases hp : processRepo wf et max now past st repo with
      | error e =>
          rw [hp] at h
          exact absurd h (by simp)
      | ok st2 =>
          rw [hp] at h
          obtain ⟨hc, hd, status, hs, hev⟩ := processRepo_neg_max hneg hge hp
          have hge2 : 0 ≤ st2.rebuilds_triggered := by rw [hc]; exact hge
          obtain ⟨hc2, hd2, extra, hs2, hev2⟩ := ih hge2 h
          refine ⟨by rw [hc2, hc], by rw [hd2, hd],
            (repo.full_name, status) :: extra, ?_, ?_⟩
          · rw [hs2, hs]
            simp
          · intro p hp2
            rcases List.mem_cons.mp hp2 with rfl | hmem
            · exact hev
            · exact hev2 p hmem

/-! ### Claim theorems -/

/-- C1: for a repository whose workflow has a most recent run at time `t`,
a completed iteration records `event_sent = true` if and only if the run
is strictly older than the cutoff and the budget check
(`max_rebuilds == 0` or the counter at that point is below `max_rebuilds`)
passes; a dispatch of the configured event type is sent exactly in that
case, and otherwise `event_sent` is recorded `false` and no dispatch is
sent — in particular a repository whose run is not older than the cutoff
never receives a dispatch. -/
theorem rebuild_decision_matches_budget (wf et : String) (max now past : Int)
    (st st' : LoopState) (repo : RepoState) (t : Int)
    (hrun : get_last_run repo wf = some t)
    (h : processRepo wf et max now past st repo = Except.ok st') :
    ∃ status : RepoStatus,
      st'.repositories = st.repositories ++ [(repo.full_name, status)] ∧
      (status.event_sent = some true ↔
        (t < past ∧ (max = 0 ∨ st.rebuilds_triggered < max))) ∧
      (status.event_sent = some true ∨ status.event_sent = some false) ∧
      st'.dispatches =
        (if status.event_sent = some true
         then st.dispatches ++ [(repo.full_name, et)]
         else st.dispatches) := by
  unfold processRepo at h
  simp only [hrun] at h
  by_cases hq : t < past
  · rw [if_pos hq] at h
    by_cases hb : max = 0 ∨ st.rebuilds_triggered < max
    · rw [if_pos hb] at h
      by_cases hd : repo.dispatch_ok = true
      · rw [if_pos hd] at h
        injection h with h2
        rw [← h2]
        refine ⟨_, rfl, ?_, Or.inl rfl, ?_⟩
        · simp [baseStatus, hq, hb]
        · simp [baseStatus]
      · rw [if_neg hd] at h
        exact absurd h (by simp)
    · rw [if_neg hb] at h
      injection h with h2
      rw [← h2]
      refine ⟨_, rfl, ?_, Or.inr rfl, ?_⟩
      · simp [baseStatus, hb]
      · simp [baseStatus]
  · rw [if_neg hq] at h
    injection h with h2
    rw [← h2]
    refine ⟨_, rfl, ?_, Or.inr rfl, ?_⟩
    · simp [baseStatus, hq]
    · simp [baseStatus]

/-- The state after processing `repoAlpha` from the initial state with
budget 10 at time 1000 against cutoff 900. -/
def stepOutW : LoopState :=
  match processRepo wfName evType 10 1000 900 initState repoAlpha with
  | Except.ok s => s
  | Except.error _ => default

/-- Witness for C1 at a concrete input: `repoAlpha` has a run at time 100,
older than the cutoff 900, the budget is open, so `event_sent = true` and
one dispatch is sent. -/
theorem rebuild_decision_matches_budget_witness :
    ∃ status : RepoStatus,
      stepOutW.repositories = initState.repositories ++ [(repoAlpha.full_name, status)] ∧
      (status.event_sent = some true ↔
        ((100:Int) < 900 ∧ ((10:Int) = 0 ∨ initState.rebuilds_triggered < 10))) ∧
      (status.event_sent = some true ∨ status.event_sent = some false) ∧
      stepOutW.dispatches =
        (if status.event_sent = some true
         then initState.dispatches ++ [(repoAlpha.full_name, evType)]
         else initState.dispatches) :=
  rebuild_decision_matches_budget wfName evType 10 1000 900 initState stepOutW
    repoAlpha 100 rfl rfl

/-- C2 counterexample: with `max_rebuilds = -1` (a nonzero value) the
loop completes with the counter at 0, which exceeds `max_rebuilds`; so
"the counter never exceeds max_rebuilds when max_rebuilds != 0" fails for
negative values. -/
theorem rebuild_counter_negative_max_exceeded :
    ∃ st' : LoopState,
      runLoop wfName evType (-1) 1000 900 initState [repoAlpha] = Except.ok st' ∧
      st'.rebuilds_triggered = 0 ∧ ¬ st'.rebuilds_triggered ≤ -1 := by
  refine ⟨_, rfl, rfl, by decide⟩

/-- C2 (amended): the counter starts at 0, never decreases across the
loop, advances by exactly the number of dispatch events sent, and when
`max_rebuilds` is positive it never exceeds `max_rebuilds`.  (With a
negative `max_rebuilds` the budget check simply never passes, so the
counter stays put; the bound itself fails then, as the counterexample
shows.) -/
theorem rebuild_counter_monotone_bounded (wf et : String) (max now past : Int)
    (st st' : LoopState) (repos : List RepoState)
    (h : runLoop wf et max now past st repos = Except.ok st') :
    initState.rebuilds_triggered = 0 ∧
    st.rebuilds_triggered ≤ st'.rebuilds_triggered ∧
    (0 < max → st.rebuilds_triggered ≤ max → st'.rebuilds_triggered ≤ max) ∧
    st'.rebuilds_triggered + (st.dispatches.length : Int) =
      st.rebuilds_triggered + (st'.dispatches.length : Int) := by
  obtain ⟨h1, h2, h3⟩ := runLoop_counter_invariant h
  exact ⟨rfl, h1, h2, h3⟩

/-- The loop state after running the full loop on `[repoAlpha]` with
budget 10. -/
def loopOutW : LoopState :=
  match runLoop wfName evType 10 1000 900 initState [repoAlpha] with
  | Except.ok s => s
  | Except.error _ => default

/-- Witness for the amended C2 at a concrete input. -/
theorem rebuild_counter_monotone_bounded_witness :
    initState.rebuilds_triggered = 0 ∧
    initState.rebuilds_triggered ≤ loopOutW.rebuilds_triggered ∧
    ((0:Int) < 10 → initState.rebuilds_triggered ≤ 10 → loopOutW.rebuilds_triggered ≤ 10) ∧
    loopOutW.rebuilds_triggered + (initState.dispatches.length : Int) =
      initState.rebuilds_triggered + (loopOutW.dispatches.length : Int) :=
  rebuild_counter_monotone_bounded wfName evType 10 1000 900 initState loopOutW
    [repoAlpha] rfl

/-- C3 counterexample: a qualifying repository whose dispatch call raises
aborts the whole run — the second repository is never evaluated and no
report file is written (the run ends in an uncaught exception instead of
producing a `MainOutput`). -/
theorem dispatch_failure_aborts_run :
    runWithConfig cfgSample 1000 [repoBadDispatch, repoAlpha] =
      Except.error (Failure.uncaught dispatchErrorMsg) := rfl

/-- C3 (amended): a failure that surfaces as a non-success response or an
empty run list is local — the iteration completes, records `nullStatus`
(`workflow = null`), and the loop continues with the remaining
repositories; but an exception raised by the dispatch call propagates and
aborts the run before the report is written. -/
theorem lookup_failure_continues_loop (wf et : String) (max now past : Int)
    (st : LoopState) (repo : RepoState) (rest : List RepoState)
    (h : get_last_run repo wf = none) :
    processRepo wf et max now past st repo =
      Except.ok { st with
        repositories := st.repositories ++ [(repo.full_name, nullStatus)] } ∧
    runLoop wf et max now past st (repo :: rest) =
      runLoop wf et max now past
        { st with repositories := st.repositories ++ [(repo.full_name, nullStatus)] }
        rest := by
  have hp : processRepo wf et max now past st repo =
      Except.ok { st with
        repositories := st.repositories ++ [(repo.full_name, nullStatus)] } := by
    unfold processRepo
    simp only [h]
  refine ⟨hp, ?_⟩
  simp only [runLoop, hp]

/-- Witness for the amended C3: `repoNoWf` answers 404, so its iteration
records `nullStatus` and the loop moves on to `repoAlpha`. -/
theorem lookup_failure_continues_loop_witness :
    processRepo wfName evType 10 1000 900 initState repoNoWf =
      Except.ok { initState with
        repositories := initState.repositories ++ [(repoNoWf.full_name, nullStatus)] } ∧
    runLoop wfName evType 10 1000 900 initState (repoNoWf :: [repoAlpha]) =
      runLoop wfName evType 10 1000 900
        { initState with
          repositories := initState.repositories ++ [(repoNoWf.full_name, nullStatus)] }
        [repoAlpha] :=
  lookup_failure_continues_loop wfName evType 10 1000 900 initState repoNoWf
    [repoAlpha] rfl

/-- C4 counterexample: the code has no visibility gate and reads no
"include non-public" or "mask non-public" option; a private repository is
evaluated and appears as a key of the report like any other, so "a private
repository with include non-public disabled is skipped entirely with no
report entry" is false. -/
theorem private_repo_reported_without_gate :
    repoPriv.is_private = true ∧
    ∃ out : MainOutput,
      runWithConfig cfgSample 1000 [repoPriv] = Except.ok out ∧
      out.report.repositories.map Prod.fst = [namePriv] :=
  ⟨rfl, _, rfl, rfl⟩

/-- C4 (amended): every enumerated repository, private or public,
contributes exactly one key to the report, and the entire run result is
invariant under arbitrary rewriting of the visibility flags — the code
never consults them. -/
theorem visibility_ignored_all_repos_reported (cfg : Config) (now : Int)
    (repos : List RepoState) (f : RepoState → Bool) (out : MainOutput)
    (h : runWithConfig cfg now repos = Except.ok out) :
    out.report.repositories.map Prod.fst = repos.map RepoState.full_name ∧
    runWithConfig cfg now (repos.map (fun r => { r with is_private := f r })) =
      Except.ok out := by
  constructor
  · unfold runWithConfig at h
    cases hl : runLoop cfg.workflow_id cfg.event_type cfg.max_rebuilds now
        (now - cfg.build_age_seconds) initState repos with
    | error e =>
        rw [hl] at h
        exact absurd h (by simp)
    | ok final =>
        rw [hl] at h
        injection h with h2
        rw [← h2]
        have hk := runLoop_keys hl
        simpa [initState, finishRun, buildReport] using hk
  · unfold runWithConfig
    rw [runLoop_ignores_visibility]
    exact h

/-- The output of the run on `[repoPriv, repoAlpha]`. -/
def outVisW : MainOutput :=
  match runWithConfig cfgSample 1000 [repoPriv, repoAlpha] with
  | Except.ok o => o
  | Except.error _ => default

/-- Witness for the amended C4 at a concrete input containing one private
and one public repository. -/
theorem visibility_ignored_all_repos_reported_witness :
    outVisW.report.repositories.map Prod.fst =
      [repoPriv, repoAlpha].map RepoState.full_name ∧
    runWithConfig cfgSample 1000
        ([repoPriv, repoAlpha].map (fun r => { r with is_private := !r.is_private })) =
      Except.ok outVisW :=
  visibility_ignored_all_repos_reported cfgSample 1000 [repoPriv, repoAlpha]
    (fun r => !r.is_private) outVisW rfl

/-- C5 counterexample: the most recent run of `repoCross` (time 50) is on
a feature branch while the most recent run on its default branch is at
time 10;
the code uses 50, the branch-restricted value the spec describes is 10, so
the last-run time is not restricted to the default branch. -/
theorem last_run_ignores_default_branch :
    get_last_run repoCross wfName = some 50 ∧
    get_last_run_spec_branch repoCross wfName = some 10 ∧
    ¬ get_last_run repoCross wfName = get_last_run_spec_branch repoCross wfName :=
  ⟨rfl, rfl, by decide⟩

/-- C5 (amended): the last-run time used is the creation timestamp of the
first (most recent) run in the listing for the workflow across all
branches; only that first run matters — the remaining runs are never
inspected. -/
theorem last_run_uses_head_run_only (repo : RepoState) (wf : String)
    (r : WorkflowRun) (tail1 tail2 : List WorkflowRun)
    (h200 : repo.runs_status_code = 200) :
    get_last_run { repo with workflow_runs := r :: tail1 } wf = some r.created_at ∧
    get_last_run { repo with workflow_runs := r :: tail1 } wf =
      get_last_run { repo with workflow_runs := r :: tail2 } wf := by
  constructor <;> simp [get_last_run, h200]

/-- Witness for the amended C5 at a concrete input. -/
theorem last_run_uses_head_run_only_witness :
    get_last_run { repoAlpha with
        workflow_runs := [{ created_at := 50, head_branch := devBr }] } wfName =
      some 50 ∧
    get_last_run { repoAlpha with
        workflow_runs := [{ created_at := 50, head_branch := devBr }] } wfName =
      get_last_run { repoAlpha with
        workflow_runs := { created_at := 50, head_branch := devBr } ::
          [{ created_at := 10, head_branch := mainBr }] } wfName :=
  last_run_uses_head_run_only repoAlpha wfName
    { created_at := 50, head_branch := devBr } [] [{ created_at := 10, head_branch := mainBr }]
    rfl

/-- C7: a repository whose runs request answers non-200 or whose run list
is empty gets `get_last_run = none`; its iteration completes successfully
(the run does not fail) and its report entry is exactly
`\x7b"workflow": null\x7d` — the `nullStatus` record has no
`run_age_seconds`, `run_age` or `event_sent` key and serializes to the
single member `"workflow": null`. -/
theorem absent_workflow_entry_shape (wf et : String) (max now past : Int)
    (st : LoopState) (repo : RepoState)
    (h : repo.runs_status_code ≠ 200 ∨ repo.workflow_runs = []) :
    get_last_run repo wf = none ∧
    processRepo wf et max now past st repo =
      Except.ok { st with
        repositories := st.repositories ++ [(repo.full_name, nullStatus)] } ∧
    nullStatus.workflow = none ∧
    nullStatus.run_age_seconds = none ∧
    nullStatus.run_age = none ∧
    nullStatus.event_sent = none ∧
    statusItems nullStatus = ["\"workflow\": null"] := by
  have hnone : get_last_run repo wf = none := by
    rcases h with h | h
    · simp [get_last_run, h]
    · simp [get_last_run, h]
  refine ⟨hnone, ?_, rfl, rfl, rfl, rfl, rfl⟩
  unfold processRepo
  simp only [hnone]

/-- Witness for C7 at a concrete input (`repoNoWf` answers 404). -/
theorem absent_workflow_entry_shape_witness :
    get_last_run repoNoWf wfName = none ∧
    processRepo wfName evType 10 1000 900 initState repoNoWf =
      Except.ok { initState with
        repositories := initState.repositories ++ [(repoNoWf.full_name, nullStatus)] } ∧
    nullStatus.workflow = none ∧
    nullStatus.run_age_seconds = none ∧
    nullStatus.run_age = none ∧
    nullStatus.event_sent = none ∧
    statusItems nullStatus = ["\"workflow\": null"] :=
  absent_workflow_entry_shape wfName evType 10 1000 900 initState repoNoWf
    (Or.inl (by decide))

/-- C8: whenever the loop completes, the output contains exactly one file
write, to `\x7boutput_dir\x7d/\x7boutput_filename\x7d`, whose contents are
the report serialized with 4-space indentation and sorted keys
(`dumpReport`); the report carries the five aggregate fields; and with the
same configuration the write also happens when zero repositories matched
(and hence zero dispatches were sent). -/
theorem report_written_once_sorted (cfg : Config) (now : Int)
    (repos : List RepoState) (out : MainOutput)
    (h : runWithConfig cfg now repos = Except.ok out) :
    out.writes = [(cfg.github_workspace_dir ++ "/" ++ cfg.write_filename,
                   dumpReport out.report)] ∧
    out.report.build_age_seconds = cfg.build_age_seconds ∧
    out.report.build_age = cfg.build_age ∧
    out.report.ran_at = isoformat now ∧
    out.report.repository_query = cfg.repo_query ∧
    ∃ out0 : MainOutput, runWithConfig cfg now [] = Except.ok out0 ∧
      out0.writes.length = 1 ∧ out0.dispatches = [] := by
  unfold runWithConfig at h
  cases hl : runLoop cfg.workflow_id cfg.event_type cfg.max_rebuilds now
      (now - cfg.build_age_seconds) initState repos with
  | error e =>
      rw [hl] at h
      exact absurd h (by simp)
  | ok final =>
      rw [hl] at h
      injection h with h2
      rw [← h2]
      exact ⟨rfl, rfl, rfl, rfl, rfl, finishRun cfg now initState, rfl, rfl, rfl⟩

/-- Witness for C8 at a concrete input. -/
theorem report_written_once_sorted_witness :
    outVisW.writes = [(cfgSample.github_workspace_dir ++ "/" ++ cfgSample.write_filename,
                   dumpReport outVisW.report)] ∧
    outVisW.report.build_age_seconds = cfgSample.build_age_seconds ∧
    outVisW.report.build_age = cfgSample.build_age ∧
    outVisW.report.ran_at = isoformat 1000 ∧
    outVisW.report.repository_query = cfgSample.repo_query ∧
    ∃ out0 : MainOutput, runWithConfig cfgSample 1000 [] = Except.ok out0 ∧
      out0.writes.length = 1 ∧ out0.dispatches = [] :=
  report_written_once_sorted cfgSample 1000 [repoPriv, repoAlpha] outVisW rfl

/-- C10: with a negative `max_rebuilds` (for example -1) the budget check
`max_rebuilds == 0 or rebuilds_triggered < max_rebuilds` never passes, so
a completed run sends no dispatch events at all and records no
`event_sent = true` for any repository — a negative maximum behaves as an
exhausted budget, not as unlimited. -/
theorem negative_max_rebuilds_sends_nothing (cfg : Config) (now : Int)
    (repos : List RepoState) (out : MainOutput)
    (hneg : cfg.max_rebuilds < 0)
    (h : runWithConfig cfg now repos = Except.ok out) :
    out.dispatches = [] ∧
    ∀ p ∈ out.report.repositories, p.2.event_sent ≠ some true := by
  unfold runWithConfig at h
  cases hl : runLoop cfg.workflow_id cfg.event_type cfg.max_rebuilds now
      (now - cfg.build_age_seconds) initState repos with
  | error e =>
      rw [hl] at h
      exact absurd h (by simp)
  | ok final =>
      rw [hl] at h
      injection h with h2
      rw [← h2]
      obtain ⟨hc, hd, extra, hs, hev⟩ := runLoop_neg_max hneg (by decide) hl
      constructor
      · show final.dispatches = []
        rw [hd]
        rfl
      · show ∀ p ∈ final.repositories, p.2.event_sent ≠ some true
        intro p hp
        apply hev
        rw [hs] at hp
        simpa [initState] using hp

/-- A budget of -1. -/
def cfgNeg : Config := { cfgSample with max_rebuilds := -1 }

/-- The output of the run on `[repoAlpha]` with budget -1. -/
def outNegW : MainOutput :=
  match runWithConfig cfgNeg 1000 [repoAlpha] with
  | Except.ok o => o
  | Except.error _ => default

/-- Witness for C10 at a concrete input: `repoAlpha` qualifies for a
rebuild, yet nothing is dispatched. -/
theorem negative_max_rebuilds_sends_nothing_witness :
    outNegW.dispatches = [] ∧
    ∀ p ∈ outNegW.report.repositories, p.2.event_sent ≠ some true :=
  negative_max_rebuilds_sends_nothing cfgNeg 1000 [repoAlpha] outNegW
    (by decide) rfl

/-! ### C9: what part of the output depends only on the remote state -/

/-- Erase the time-dependent fields of a status record (`run_age_seconds`
and `run_age` are computed from `now`). -/
def scrubStatus (s : RepoStatus) : RepoStatus :=
  { s with run_age_seconds := none, run_age := none }

def scrubEntry (p : String × RepoStatus) : String × RepoStatus :=
  (p.1, scrubStatus p.2)

/-- Erase the time-dependent fields of a report: `ran_at` and the per-
repository age fields. -/
def scrubReport (r : Report) : Report :=
  { r with ran_at := "", repositories := r.repositories.map scrubEntry }

/-- Erase the time-dependent fields of a loop state. -/
def scrubState (st : LoopState) : LoopState :=
  { rebuilds_triggered := st.rebuilds_triggered
    repositories := st.repositories.map scrubEntry
    dispatches := st.dispatches }

/-- One iteration, viewed up to the time-dependent fields, is determined
by the repository and by which side of the cutoff its last run falls on. -/
theorem processRepo_scrub_congr (wf et : String) (max now1 now2 past1 past2 : Int)
    (st1 st2 : LoopState) (repo : RepoState)
    (hs : scrubState st1 = scrubState st2)
    (hiff : ∀ t, get_last_run repo wf = some t → (t < past1 ↔ t < past2)) :
    (processRepo wf et max now1 past1 st1 repo).map scrubState =
      (processRepo wf et max now2 past2 st2 repo).map scrubState := by
  have hc : st1.rebuilds_triggered = st2.rebuilds_triggered := by
    have h3 := congrArg LoopState.rebuilds_triggered hs
    simpa [scrubState] using h3
  have hd : st1.dispatches = st2.dispatches := by
    have h3 := congrArg LoopState.dispatches hs
    simpa [scrubState] using h3
  have hrm : st1.repositories.map scrubEntry = st2.repositories.map scrubEntry := by
    have h3 := congrArg LoopState.repositories hs
    simpa [scrubState] using h3
  cases hlr : get_last_run repo wf with
  | none =>
      unfold processRepo
      simp only [hlr, Except.map]
      simp [scrubState, hc, hd, hrm, scrubEntry]
  | some t =>
      have hiff2 := hiff t hlr
      unfold processRepo
      simp only [hlr]
      by_cases h1 : t < past1
      · have h2 : t < past2 := hiff2.mp h1
        rw [if_pos h1, if_pos h2, ← hc]
        by_cases hb : max = 0 ∨ st1.rebuilds_triggered < max
        · rw [if_pos hb, if_pos hb]
          by_cases hdok : repo.dispatch_ok = true
          · rw [if_pos hdok, if_pos hdok]
            simp only [Except.map]
            simp [scrubState, hc, hd, hrm, scrubEntry, scrubStatus, baseStatus]
          · rw [if_neg hdok, if_neg hdok]
        · rw [if_neg hb, if_neg hb]
          simp only [Except.map]
          simp [scrubState, hc, hd, hrm, scrubEntry, scrubStatus, baseStatus]
      · have h2 : ¬ t < past2 := fun hcon => h1 (hiff2.mpr hcon)
        rw [if_neg h1, if_neg h2]
        simp only [Except.map]
        simp [scrubState, hc, hd, hrm, scrubEntry, scrubStatus, baseStatus]

/-- The whole loop, viewed up to the time-dependent fields, is determined
by the remote state and the cutoff decisions. -/
theorem runLoop_scrub_congr (wf et : String) (max now1 now2 past1 past2 : Int)
    (st1 st2 : LoopState) (repos : List RepoState)
    (hs : scrubState st1 = scrubState st2)
    (hq : ∀ repo ∈ repos, ∀ t, get_last_run repo wf = some t →
      (t < past1 ↔ t < past2)) :
    (runLoop wf et max now1 past1 st1 repos).map scrubState =
      (runLoop wf et max now2 past2 st2 repos).map scrubState := by
  induction repos generalizing st1 st2 with
  | nil => simpa [runLoop, Except.map] using hs
  | cons repo rest ih =>
      have hstep := processRepo_scrub_congr wf et max now1 now2 past1 past2 st1 st2 repo
        hs (fun t ht => hq repo (List.mem_cons_self _ _) t ht)
      simp only [runLoop]
      cases hp1 : processRepo wf et max now1 past1 st1 repo with
      | error e =>
          cases hp2 : processRepo wf et max now2 past2 st2 repo with
          | error e2 =>
              rw [hp1, hp2] at hstep
              simpa [Except.map] using hstep
          | ok s2 =>
              rw [hp1, hp2] at hstep
              exact absurd hstep (by simp [Except.map])
      | ok s1 =>
          cases hp2 : processRepo wf et max now2 past2 st2 repo with
          | error e2 =>
              rw [hp1, hp2] at hstep
              exact absurd hstep (by simp [Except.map])
          | ok s2 =>
              rw [hp1, hp2] at hstep
              simp only [Except.map] at hstep
              injection hstep with hss
              exact ih s1 s2 hss (fun r hr3 t ht => hq r (List.mem_cons_of_mem _ hr3) t ht)

/-- C9 (amended): two completed runs with the same configuration and the
same remote state whose cutoff decisions agree produce the same dispatch
events and reports that agree on everything except `ran_at` and the
per-repository `run_age_seconds`/`run_age` fields, all of which are
computed from the invocation time. -/
theorem scrubbed_output_deterministic (cfg : Config) (now1 now2 : Int)
    (repos : List RepoState) (o1 o2 : MainOutput)
    (h1 : runWithConfig cfg now1 repos = Except.ok o1)
    (h2 : runWithConfig cfg now2 repos = Except.ok o2)
    (hq : ∀ repo ∈ repos, ∀ t, get_last_run repo cfg.workflow_id = some t →
      (t < now1 - cfg.build_age_seconds ↔ t < now2 - cfg.build_age_seconds)) :
    scrubReport o1.report = scrubReport o2.report ∧ o1.dispatches = o2.dispatches := by
  unfold runWithConfig at h1 h2
  cases hl1 : runLoop cfg.workflow_id cfg.event_type cfg.max_rebuilds now1
      (now1 - cfg.build_age_seconds) initState repos with
  | error e =>
      rw [hl1] at h1
      exact absurd h1 (by simp)
  | ok f1 =>
      cases hl2 : runLoop cfg.workflow_id cfg.event_type cfg.max_rebuilds now2
          (now2 - cfg.build_age_seconds) initState repos with
      | error e =>
          rw [hl2] at h2
          exact absurd h2 (by simp)
      | ok f2 =>
          rw [hl1] at h1
          rw [hl2] at h2
          injection h1 with ho1
          injection h2 with ho2
          have hcong := runLoop_scrub_congr cfg.workflow_id cfg.event_type
            cfg.max_rebuilds now1 now2 (now1 - cfg.build_age_seconds)
            (now2 - cfg.build_age_seconds) initState initState repos rfl hq
          rw [hl1, hl2] at hcong
          simp only [Except.map] at hcong
          injection hcong with hss
          have hrm : f1.repositories.map scrubEntry = f2.repositories.map scrubEntry := by
            have h3 := congrArg LoopState.repositories hss
            simpa [scrubState] using h3
          have hdisp : f1.dispatches = f2.dispatches := by
            have h3 := congrArg LoopState.dispatches hss
            simpa [scrubState] using h3
          rw [← ho1, ← ho2]
          constructor
          · show scrubReport (buildReport cfg now1 f1) = scrubReport (buildReport cfg now2 f2)
            simp [scrubReport, buildReport, hrm]
          · exact hdisp

set_option maxRecDepth 4000 in
/-- C9 counterexample: with the same configuration and remote state but
two invocation times 1000 and 1600, the two written files differ even
after forcing `ran_at` equal — `run_age_seconds`/`run_age` are computed
from the invocation time, so the outputs are not byte-identical except for
`ran_at`. -/
theorem output_differs_beyond_ran_at :
    ∃ o1 o2 : MainOutput,
      runWithConfig cfgSample 1000 [repoAlpha] = Except.ok o1 ∧
      runWithConfig cfgSample 1600 [repoAlpha] = Except.ok o2 ∧
      dumpReport { o1.report with ran_at := o2.report.ran_at } ≠ dumpReport o2.report := by
  refine ⟨_, _, rfl, rfl, by decide⟩

/-- The outputs at times 1000 and 1600 on `[repoAlpha]`. -/
def outT1 : MainOutput :=
  match runWithConfig cfgSample 1000 [repoAlpha] with
  | Except.ok o => o
  | Except.error _ => default

def outT2 : MainOutput :=
  match runWithConfig cfgSample 1600 [repoAlpha] with
  | Except.ok o => o
  | Except.error _ => default

/-- Witness for the amended C9 at a concrete input: the run at time 100 is
older than both cutoffs, so the scrubbed reports and the dispatch lists
coincide. -/
theorem scrubbed_output_deterministic_witness :
    scrubReport outT1.report = scrubReport outT2.report ∧
    outT1.dispatches = outT2.dispatches :=
  scrubbed_output_deterministic cfgSample 1000 1600 [repoAlpha] outT1 outT2 rfl rfl
    (by
      intro repo hrepo t ht
      rw [List.mem_singleton] at hrepo
      subst hrepo
      have h4 : (some (100:Int)) = some t := by
        rw [show get_last_run repoAlpha cfgSample.workflow_id = some 100 from rfl] at ht
        exact ht
      injection h4 with h5
      subst h5
      constructor <;> intro _ <;> decide)

/-! ### C6: preflight failures -/

def argsNone : CliArgs :=
  { github_token := none, repo_query := none, workflow_name := none,
    build_age := none, event_type := none, max_rebuilds := none,
    output_dir := none, output_file := none, log_level := infoLevel }

def garbageAge : String := "not-a-duration"

/-- An environment with every required variable set and the build age
unparseable. -/
def envAll : Env :=
  { input_access_token := some tokStr, input_build_age := some garbageAge,
    input_event_type := some evType, github_workspace := some wsDir,
    input_max_rebuilds := none, input_repo_query := some queryStr,
    input_workflow_id := some wfName, input_write_filename := none }

/-- An environment that is complete except for the access token. -/
def envNoTok : Env :=
  { input_access_token := none, input_build_age := some ageStr,
    input_event_type := some evType, github_workspace := some wsDir,
    input_max_rebuilds := none, input_repo_query := some queryStr,
    input_workflow_id := some wfName, input_write_filename := none }

/-- Result of `pytimeparse.parse` on an unparseable duration: `None`. -/
def parseFail : String → Option Int := fun _ => none

/-- Did the run terminate via `sys.exit(-1)`? -/
def isExitMinusOne : Except Failure MainOutput → Bool
  | Except.error (Failure.exited c _) => c == -1
  | _ => false

/-- C6 counterexample: with every required value present but an
unparseable build age, the run dies with an uncaught `TypeError` from
`relativedelta(seconds=None)` (process exit status 1, traceback, no fatal
diagnostic naming the field) rather than terminating with exit code -1 as
the claim states; it still happens before any network call. -/
theorem unparseable_build_age_typeerror :
    mainRun argsNone envAll parseFail 1000 [repoAlpha] =
      Except.error (Failure.uncaught typeErrorMsg) ∧
    isExitMinusOne (mainRun argsNone envAll parseFail 1000 [repoAlpha]) = false :=
  ⟨rfl, by decide⟩

/-- C6 (amended): each missing required value makes the run exit with code
-1 and a fatal diagnostic naming the variable of that value, while an
unparseable build age makes it die with an uncaught `TypeError` (a nonzero
exit status, but not -1, and no diagnostic naming the field); all of these
happen during preflight, before any network call — the conclusions hold
for every list of repositories, whose data is never consulted. -/
theorem missing_config_exits_before_network (args : CliArgs) (env : Env)
    (p : String → Option Int) (now : Int) (repos : List RepoState) (maxv : Int)
    (hlog : log_levels.contains (pyLower args.log_level) = true)
    (hmax : pyInt (match args.max_rebuilds with
             | some s => s
             | none => env.input_max_rebuilds.getD defaultMaxStr) = some maxv) :
    (firstSome args.github_token env.input_access_token = none →
      mainRun args env p now repos = Except.error (Failure.exited (-1) accessTokenMsg)) ∧
    (firstSome args.github_token env.input_access_token ≠ none →
     firstSome args.build_age env.input_build_age = none →
      mainRun args env p now repos = Except.error (Failure.exited (-1) buildAgeMsg)) ∧
    (firstSome args.github_token env.input_access_token ≠ none →
     firstSome args.build_age env.input_build_age ≠ none →
     firstSome args.event_type env.input_event_type = none →
      mainRun args env p now repos = Except.error (Failure.exited (-1) eventTypeMsg)) ∧
    (firstSome args.github_token env.input_access_token ≠ none →
     firstSome args.build_age env.input_build_age ≠ none →
     firstSome args.event_type env.input_event_type ≠ none →
     firstSome args.output_dir env.github_workspace = none →
      mainRun args env p now repos = Except.error (Failure.exited (-1) workspaceMsg)) ∧
    (firstSome args.github_token env.input_access_token ≠ none →
     firstSome args.build_age env.input_build_age ≠ none →
     firstSome args.event_type env.input_event_type ≠ none →
     firstSome args.output_dir env.github_workspace ≠ none →
     firstSome args.repo_query env.input_repo_query = none →
      mainRun args env p now repos = Except.error (Failure.exited (-1) repoQueryMsg)) ∧
    (firstSome args.github_token env.input_access_token ≠ none →
     firstSome args.build_age env.input_build_age ≠ none →
     firstSome args.event_type env.input_event_type ≠ none →
     firstSome args.output_dir env.github_workspace ≠ none →
     firstSome args.repo_query env.input_repo_query ≠ none →
     firstSome args.workflow_name env.input_workflow_id = none →
      mainRun args env p now repos = Except.error (Failure.exited (-1) workflowIdMsg)) ∧
    (firstSome args.github_token env.input_access_token ≠ none →
     firstSome args.build_age env.input_build_age ≠ none →
     firstSome args.event_type env.input_event_type ≠ none →
     firstSome args.output_dir env.github_workspace ≠ none →
     firstSome args.repo_query env.input_repo_query ≠ none →
     firstSome args.workflow_name env.input_workflow_id ≠ none →
     p ((firstSome args.build_age env.input_build_age).getD defaultMaxStr) = none →
      mainRun args env p now repos = Except.error (Failure.uncaught typeErrorMsg)) := by
  have hmem : pyLower args.log_level ∈ log_levels := by simpa using hlog
  refine ⟨?_, ?_, ?_, ?_, ?_, ?_, ?_⟩
  · intro h1
    simp [mainRun, preflight, hmem, hmax, h1, require, Except.bind]
  · intro h1 h2
    obtain ⟨tok, htok⟩ := Option.ne_none_iff_exists'.mp h1
    simp [mainRun, preflight, hmem, hmax, htok, h2, require, Except.bind]
  · intro h1 h2 h3
    obtain ⟨tok, htok⟩ := Option.ne_none_iff_exists'.mp h1
    obtain ⟨ba, hba⟩ := Option.ne_none_iff_exists'.mp h2
    simp [mainRun, preflight, hmem, hmax, htok, hba, h3, require, Except.bind]
  · intro h1 h2 h3 h4
    obtain ⟨tok, htok⟩ := Option.ne_none_iff_exists'.mp h1
    obtain ⟨ba, hba⟩ := Option.ne_none_iff_exists'.mp h2
    obtain ⟨et, het⟩ := Option.ne_none_iff_exists'.mp h3
    simp [mainRun, preflight, hmem, hmax, htok, hba, het, h4, require, Except.bind]
  · intro h1 h2 h3 h4 h5
    obtain ⟨tok, htok⟩ := Option.ne_none_iff_exists'.mp h1
    obtain ⟨ba, hba⟩ := Option.ne_none_iff_exists'.mp h2
    obtain ⟨et, het⟩ := Option.ne_none_iff_exists'.mp h3
    obtain ⟨dir, hdir⟩ := Option.ne_none_iff_exists'.mp h4
    simp [mainRun, preflight, hmem, hmax, htok, hba, het, hdir, h5, require, Except.bind]
  · intro h1 h2 h3 h4 h5 h6
    obtain ⟨tok, htok⟩ := Option.ne_none_iff_exists'.mp h1
    obtain ⟨ba, hba⟩ := Option.ne_none_iff_exists'.mp h2
    obtain ⟨et, het⟩ := Option.ne_none_iff_exists'.mp h3
    obtain ⟨dir, hdir⟩ := Option.ne_none_iff_exists'.mp h4
    obtain ⟨q, hq⟩ := Option.ne_none_iff_exists'.mp h5
    simp [mainRun, preflight, hmem, hmax, htok, hba, het, hdir, hq, h6, require, Except.bind]
  · intro h1 h2 h3 h4 h5 h6 h7
    obtain ⟨tok, htok⟩ := Option.ne_none_iff_exists'.mp h1
    obtain ⟨ba, hba⟩ := Option.ne_none_iff_exists'.mp h2
    obtain ⟨et, het⟩ := Option.ne_none_iff_exists'.mp h3
    obtain ⟨dir, hdir⟩ := Option.ne_none_iff_exists'.mp h4
    obtain ⟨q, hq⟩ := Option.ne_none_iff_exists'.mp h5
    obtain ⟨wf, hwf⟩ := Option.ne_none_iff_exists'.mp h6
    obtain ⟨wfile, hwfile⟩ : ∃ v, firstSome args.output_file
        (some (env.input_write_filename.getD defaultFileStr)) = some v := by
      cases hof : args.output_file with
      | none => exact ⟨env.input_write_filename.getD defaultFileStr, rfl⟩
      | some x => exact ⟨x, rfl⟩
    rw [hba] at h7
    simp only [Option.getD_some] at h7
    simp [mainRun, preflight, hmem, hmax, htok, hba, het, hdir, hq, hwf, hwfile, h7, require, Except.bind]

/-- Witness for the amended C6 at a concrete input: the access token is
missing, so the run exits with -1 and the message naming
`INPUT_ACCESS_TOKEN`, whatever the remote state would have been. -/
theorem missing_config_exits_before_network_witness :
    mainRun argsNone envNoTok parseFail 1000 [repoAlpha] =
      Except.error (Failure.exited (-1) accessTokenMsg) :=
  (missing_config_exits_before_network argsNone envNoTok parseFail 1000 [repoAlpha]
    10 (by decide) (by decide)).1 rfl
